import Mathlib

/-!
Shallow embedding of the AI-Detector repository (src/ai_detector.py and
src/config.py) in Lean 4, together with theorems settling the frozen claims.

Conventions of the embedding:
* Python floats are modelled as rationals (`ℚ`).
* Python exceptions are modelled by `Except` with an explicit exception type.
* The two transformer pipelines and the text-feature extractor are external
  effects; a call of `detect` receives their outcomes for the current text in a
  `ModelEnv` record (each model call either returns a `(label, score)` pair or
  raises, and the feature dictionary contributes `token_probability` and
  `readability`).
* Mutable object state (the rate-limiter fields `_last_request_time` and
  `_request_count`) is threaded explicitly as a `RateState` value, and
  `time.time()` is passed in as the `now` argument.
-/

/-- Python exception values, carrying the message `str(e)`.
`securityError` is the custom `SecurityError` of ai_detector.py;
`pipelineException` is `transformers.pipelines.base.PipelineException`;
`otherException` stands for any other `Exception` subclass. -/
inductive PyExc where
  | valueError (msg : String)
  | securityError (msg : String)
  | runtimeError (msg : String)
  | pipelineException (msg : String)
  | otherException (msg : String)
deriving DecidableEq, Repr

/-- Python `str(e)`: the message carried by the exception. -/
def PyExc.message : PyExc → String
  | .valueError m | .securityError m | .runtimeError m
  | .pipelineException m | .otherException m => m

/-- The characters matched by Python's `\s` (and stripped by `str.strip()`):
ASCII whitespace plus the code points the Unicode database marks as spaces. -/
def isPySpace (c : Char) : Bool :=
  (9 ≤ c.toNat && c.toNat ≤ 13) || (28 ≤ c.toNat && c.toNat ≤ 31) ||
  c.toNat == 32 || c.toNat == 133 || c.toNat == 160 || c.toNat == 0x1680 ||
  (0x2000 ≤ c.toNat && c.toNat ≤ 0x200A) || c.toNat == 0x2028 ||
  c.toNat == 0x2029 || c.toNat == 0x202F || c.toNat == 0x205F ||
  c.toNat == 0x3000

/-- Tokens of the regular expressions appearing in `_sanitize_input`:
a literal character, `.*?` (any character except a newline, zero or more,
laziness being irrelevant to whether a match exists), `\s*` and `\s+`. -/
inductive RTok where
  | chr (c : Char)
  | anyStar
  | sp0
  | sp1
deriving DecidableEq, Repr

/-- Does the token list match some prefix of `s`?  Fuel-indexed so that the
recursion is structural (every recursive call decreases
`2 * s.length + toks.length`, so any fuel of at least that bound plus one is
never exhausted). -/
def matchTok : ℕ → List RTok → List Char → Bool
  | 0, _, _ => false
  | _ + 1, [], _ => true
  | fuel + 1, .chr c :: ts, s =>
      match s with
      | [] => false
      | d :: s' => c == d && matchTok fuel ts s'
  | fuel + 1, .sp0 :: ts, s =>
      matchTok fuel ts s ||
        (match s with
         | d :: s' => isPySpace d && matchTok fuel (.sp0 :: ts) s'
         | [] => false)
  | fuel + 1, .sp1 :: ts, s =>
      (match s with
       | d :: s' => isPySpace d && matchTok fuel (.sp0 :: ts) s'
       | [] => false)
  | fuel + 1, .anyStar :: ts, s =>
      matchTok fuel ts s ||
        (match s with
         | d :: s' => !(d == '\n') && matchTok fuel (.anyStar :: ts) s'
         | [] => false)

/-- Python `re.search`: does the pattern match starting at some position of `s`? -/
def reSearch (toks : List RTok) : List Char → Bool
  | [] => matchTok (toks.length + 1) toks []
  | d :: s' =>
      matchTok (2 * (d :: s').length + toks.length + 1) toks (d :: s') ||
        reSearch toks s'

/-- Python `re.search(pattern, s, re.IGNORECASE)` for the all-lowercase ASCII
patterns of `_sanitize_input`: search on the lowercased text. -/
def ciSearch (toks : List RTok) (s : List Char) : Bool :=
  reSearch toks (s.map Char.toLower)

/-- A literal string as a token list. -/
def litToks (s : String) : List RTok := s.toList.map RTok.chr

/-- The regex `r'<script.*?>.*?</script>'` -/
def patScript : List RTok :=
  litToks "<script" ++ [RTok.anyStar] ++ litToks ">" ++ [RTok.anyStar] ++
    litToks "</script>"

/-- The regex `r'javascript:'` -/
def patJavascript : List RTok := litToks "javascript:"

/-- The regex `r'data:text/html'` -/
def patDataHtml : List RTok := litToks "data:text/html"

/-- The regex `r'eval\s*\('` -/
def patEvalCall : List RTok := litToks "eval" ++ [RTok.sp0] ++ litToks "("

/-- The regex `r'exec\s*\('` -/
def patExecCall : List RTok := litToks "exec" ++ [RTok.sp0] ++ litToks "("

/-- The regex `r'from\s+os\s+import'` -/
def patFromOsImport : List RTok :=
  litToks "from" ++ [RTok.sp1] ++ litToks "os" ++ [RTok.sp1] ++
    litToks "import"

/-- The regex `r'import\s+os'` -/
def patImportOs : List RTok := litToks "import" ++ [RTok.sp1] ++ litToks "os"

/-- The regex `r'__import__\s*\('` -/
def patDunderImport : List RTok :=
  litToks "__import__" ++ [RTok.sp0] ++ litToks "("

/-- The `suspicious_patterns` list of `_sanitize_input`, in source order. -/
def suspicious_patterns : List (List RTok) :=
  [patScript, patJavascript, patDataHtml, patEvalCall, patExecCall,
   patFromOsImport, patImportOs, patDunderImport]

/-- Python `html.escape` on one character (quote=True, the default).  Python applies
sequential `str.replace` calls starting with `&`, which on any input equals
this character-wise map. -/
def htmlEscapeChar (c : Char) : String :=
  if c == '&' then "&amp;"
  else if c == '<' then "&lt;"
  else if c == '>' then "&gt;"
  else if c == '"' then "&quot;"
  else if c.toNat == 39 then "&#x27;"
  else String.singleton c

/-- Python `html.escape(text)`. -/
def htmlEscape (s : List Char) : String := String.join (s.map htmlEscapeChar)

/-- Line 98: `''.join(char for char in text if ord(char) >= 32)`. -/
def stripControl (t : String) : List Char :=
  t.toList.filter (fun c => 32 ≤ c.toNat)

/-- The `for pattern in suspicious_patterns` loop: raise `SecurityError` at the
first pattern found in the text. -/
def check_suspicious : List (List RTok) → List Char → Except PyExc Unit
  | [], _ => .ok ()
  | p :: ps, s =>
      if ciSearch p s then
        .error (.securityError "Suspicious pattern detected in input")
      else check_suspicious ps s

/-- Embeds `AIDetector._sanitize_input`: remove control characters, raise on a
suspicious pattern, otherwise return the HTML-escaped text. -/
def sanitize_input (t : String) : Except PyExc String :=
  let s := stripControl t
  match check_suspicious suspicious_patterns s with
  | .error e => .error e
  | .ok () => .ok (htmlEscape s)

/-- The mutable rate-limiter fields of `AIDetector`:
`_last_request_time` and `_request_count`. -/
structure RateState where
  lastRequestTime : ℚ
  requestCount : ℕ
deriving DecidableEq, Repr

/-- Embeds `AIDetector._check_rate_limit`, with `time.time()` passed as `now` and the
object state threaded explicitly.  Returns the outcome (raise or not) and the
updated state; note the count is incremented even when the call raises. -/
def check_rate_limit (rateLimit : ℕ) (now : ℚ) (st : RateState) :
    Except PyExc Unit × RateState :=
  let st1 := if 60 < now - st.lastRequestTime then
      { lastRequestTime := now, requestCount := 0 }
    else st
  let st2 : RateState :=
    { lastRequestTime := st1.lastRequestTime,
      requestCount := st1.requestCount + 1 }
  (if rateLimit < st2.requestCount then
      .error (.securityError "Rate limit exceeded")
    else .ok (), st2)

/-- Outcomes of the external calls made by `detect` on the (sanitized) current
text: the two pipeline calls (each a `(label, score)` pair or an exception) and
the two feature values `detect` reads from `_analyze_text_features`. -/
structure ModelEnv where
  gpt2 : Except PyExc (String × ℚ)
  roberta : Except PyExc (String × ℚ)
  token_probability : ℚ
  readability : ℚ

/-- The body of `AIDetector.detect` after the rate-limit check (the code inside
the `try` block).  The `isinstance(text, str)` check always passes in this
embedding since the input has type `String`; the short-text branch only emits a
log warning.  Models are called in dict insertion order (gpt2 then roberta),
after sanitization, so a sanitization error preempts any pipeline error. -/
def detect_body (maxTextLength : ℕ) (text : String) (env : ModelEnv) :
    Except PyExc (String × ℚ) :=
  if text.toList.all isPySpace then
    .error (.valueError "Input text cannot be empty")
  else if maxTextLength < text.length then
    .error (.securityError
      ("Text length exceeds maximum allowed length of " ++
        toString maxTextLength ++ " characters"))
  else
    match sanitize_input text with
    | .error e => .error e
    | .ok _ =>
      match env.gpt2 with
      | .error e => .error e
      | .ok (lbl1, score1) =>
        match env.roberta with
        | .error e => .error e
        | .ok (lbl2, score2) =>
          let label1 := if lbl1 == "LABEL_1" then "AI" else "Human"
          let label2 := if lbl2 == "LABEL_1" then "AI" else "Human"
          let predictions := [label1, label2]
          let final0 : ℚ := (score1 + score2) / 2
          let final1 := if (0.5 : ℚ) < env.token_probability then
              final0 * 1.2 else final0
          let final2 := if (80 : ℚ) < env.readability then
              final1 * 0.8 else final1
          let aiCount := predictions.count "AI"
          let humanCount := predictions.count "Human"
          let finalLabel := if humanCount < aiCount then "AI" else "Human"
          let finalConfidence := min (max final2 0) 1
          .ok (finalLabel, finalConfidence)

/-- The `except` clauses of `detect`: `SecurityError` is re-raised,
`PipelineException` becomes a `RuntimeError`, and any other exception —
including the `ValueError`s raised by the input validation — is wrapped in a
generic `RuntimeError`. -/
def detect_except (r : Except PyExc (String × ℚ)) :
    Except PyExc (String × ℚ) :=
  match r with
  | .ok v => .ok v
  | .error (.securityError m) => .error (.securityError m)
  | .error (.pipelineException m) =>
      .error (.runtimeError ("Failed to process text: " ++ m))
  | .error e =>
      .error (.runtimeError ("An unexpected error occurred: " ++ e.message))

/-- Embeds `AIDetector.detect`.  `__init__` fixes `_rate_limit = 100`; the rate-limit
check runs first, before any input validation. -/
def detect (maxTextLength : ℕ) (now : ℚ) (st : RateState) (text : String)
    (env : ModelEnv) : Except PyExc (String × ℚ) × RateState :=
  let r := check_rate_limit 100 now st
  (detect_except
    (match r.1 with
     | .error e => .error e
     | .ok () => detect_body maxTextLength text env), r.2)

/-- Python `text[:100] + "..." if len(text) > 100 else text` in `batch_detect`. -/
def truncText (t : String) : String :=
  if 100 < t.length then t.take 100 ++ "..." else t

/-- One result dictionary appended by `batch_detect`: either
`{"text": …, "prediction": …, "confidence": …, "status": "success"}` or
`{"text": …, "error": str(e), "status": "error"}`. -/
inductive BatchResult where
  | success (text prediction : String) (confidence : ℚ)
  | failure (text error : String)
deriving DecidableEq, Repr

/-- The `"status"` field of a batch result. -/
def BatchResult.status : BatchResult → String
  | .success _ _ _ => "success"
  | .failure _ _ => "error"

/-- One input of `batch_detect`: the text together with the clock value and the
external-call outcomes of the `detect` call made for it. -/
structure BatchItem where
  text : String
  now : ℚ
  env : ModelEnv

/-- Embeds `AIDetector.batch_detect`: run `detect` on each text in order, threading
the rate-limiter state; an exception is caught and recorded, and processing
continues with the remaining texts. -/
def batch_detect (maxTextLength : ℕ) :
    List BatchItem → RateState → List BatchResult × RateState
  | [], st => ([], st)
  | item :: rest, st =>
      let r := detect maxTextLength item.now st item.text item.env
      let res : BatchResult :=
        match r.1 with
        | .ok (label, conf) =>
            .success (truncText item.text) label conf
        | .error e => .failure (truncText item.text) e.message
      let tail := batch_detect maxTextLength rest r.2
      (res :: tail.1, tail.2)

/-- The rate-limiter state after `batch_detect` has processed the first `n`
texts. -/
def state_after (maxTextLength : ℕ) (items : List BatchItem) (st : RateState)
    (n : ℕ) : RateState :=
  (batch_detect maxTextLength (items.take n) st).2

/-- A sequence of `_check_rate_limit` calls at the given clock values,
returning the final state and the number of calls that did not raise. -/
def runCalls (rateLimit : ℕ) : List ℚ → RateState → RateState × ℕ
  | [], st => (st, 0)
  | t :: ts, st =>
      let r := check_rate_limit rateLimit t st
      let rest := runCalls rateLimit ts r.2
      (rest.1, (match r.1 with | .ok _ => 1 | .error _ => 0) + rest.2)

/-- JSON-like values as Python's `json.load` produces them (with Python's
`bool` kept distinct from numbers, and ints and floats both as `jnum`). -/
inductive JVal where
  | jnull
  | jbool (b : Bool)
  | jnum (q : ℚ)
  | jstr (s : String)
  | jlist (xs : List JVal)
  | jobj (fields : List (String × JVal))

/-- The fields of `Config.default_config` (config.py, lines 9-46). -/
def default_config_fields : List (String × JVal) :=
  [("security", .jobj [
      ("max_text_length", .jnum 10000),
      ("max_file_size", .jnum (1024 * 1024)),
      ("rate_limit", .jnum 100),
      ("allowed_file_types", .jlist [.jstr ".txt"]),
      ("log_retention_days", .jnum 30)]),
   ("models", .jobj [
      ("gpt2", .jobj [
        ("model_name", .jstr "microsoft/DialogRPT-human-vs-rand"),
        ("max_length", .jnum 512),
        ("truncation", .jbool true)]),
      ("roberta", .jobj [
        ("model_name", .jstr "roberta-base-openai-detector"),
        ("max_length", .jnum 512),
        ("truncation", .jbool true)])]),
   ("ui", .jobj [
      ("theme", .jstr "light"),
      ("font_size", .jnum 12),
      ("window_size", .jobj [
        ("width", .jnum 800), ("height", .jnum 600)]),
      ("min_window_size", .jobj [
        ("width", .jnum 600), ("height", .jnum 400)])]),
   ("analysis", .jobj [
      ("confidence_threshold", .jnum (7 / 10)),
      ("min_text_length", .jnum 10),
      ("batch_size", .jnum 10)])]

/-- Embeds `Config.default_config`. -/
def default_config : JVal := .jobj default_config_fields

/-- Python `{**d, **c}`: the shallow dict merge — keys of `d` in order with the value
from `c` where `c` also has the key, then the keys only `c` has. -/
def dictMerge (d c : List (String × JVal)) : List (String × JVal) :=
  d.map (fun kv =>
    match c.lookup kv.1 with
    | some v => (kv.1, v)
    | none => kv) ++
  c.filter (fun kv => (d.lookup kv.1).isNone)

/-- Embeds `Config._load_config`, with the outside world summarised by
`fileContent`: `none` when the file does not exist, fails to open, or fails to
parse as JSON (all swallowed by the `except`, returning the defaults), and
`some v` when `json.load` returns `v`.  When `v` is not a dict, `{**d, **v}`
raises `TypeError`, which the same `except` turns into the defaults. -/
def load_config (fileContent : Option JVal) : JVal :=
  match fileContent with
  | some (.jobj fs) => .jobj (dictMerge default_config_fields fs)
  | some _ => default_config
  | none => default_config

/-- Python's `str.split(sep)` for a one-character separator, on the character
list: splitting `""` gives `[""]`, and adjacent separators give empty
pieces. -/
def pySplitChar (sep : Char) : List Char → List (List Char)
  | [] => [[]]
  | d :: rest =>
      match pySplitChar sep rest with
      | h :: t => if d == sep then [] :: h :: t else (d :: h) :: t
      | [] => [[d]]

/-- Python `key.split('.')` as a list of strings. -/
def pySplitDot (key : String) : List String :=
  (pySplitChar '.' key.toList).map (fun cs => String.mk cs)

/-- The loop body of `Config.get`: follow the split key through the nested
dicts, returning the default as soon as the current value is not a dict or
lacks the key. -/
def config_get_loop (ks : List String) (value deflt : JVal) : JVal :=
  match ks with
  | [] => value
  | k :: rest =>
      match value with
      | .jobj fs =>
          match fs.lookup k with
          | some v => config_get_loop rest v deflt
          | none => deflt
      | _ => deflt

/-- Embeds `Config.get(key, default)`. -/
def config_get (config : JVal) (key : String) (deflt : JVal) : JVal :=
  config_get_loop (pySplitDot key) config deflt

/-- Specification-side path lookup: the value stored under a key path, when
every intermediate value is a dict containing the next key. -/
def lookupPath : List String → JVal → Option JVal
  | [], v => some v
  | k :: ks, .jobj fs =>
      match fs.lookup k with
      | some v => lookupPath ks v
      | none => none
  | _ :: _, _ => none

/-- Python exceptions arising inside `Config.validate_config`. -/
inductive CfgErr where
  | assertionError
  | keyError
  | typeError
  | attributeError
deriving DecidableEq, Repr

/-- Python `v[k]` for a string key: the value for dicts that have the key,
`KeyError` for dicts that lack it, `TypeError` for every non-dict. -/
def pySubscript : JVal → String → Except CfgErr JVal
  | .jobj fs, k =>
      match fs.lookup k with
      | some v => .ok v
      | none => .error .keyError
  | _, _ => .error .typeError

/-- The numeric value of a Python object where a comparison with a number is
attempted: numbers are themselves, `bool` is an `int` subclass
(`True = 1`, `False = 0`), everything else has no numeric value. -/
def pyAsNum : JVal → Option ℚ
  | .jnum q => some q
  | .jbool b => some (if b then 1 else 0)
  | _ => none

/-- Python `v > 0`: a Bool for numeric `v`, `TypeError` otherwise. -/
def pyGtZero (v : JVal) : Except CfgErr Bool :=
  match pyAsNum v with
  | some q => .ok (decide (0 < q))
  | none => .error .typeError

/-- Python `assert b`. -/
def pyAssert (b : Bool) : Except CfgErr Unit :=
  if b then .ok () else .error .assertionError

/-- Python `assert v > 0`. -/
def pyAssertGtZero (v : JVal) : Except CfgErr Unit := do
  let b ← pyGtZero v
  pyAssert b

/-- Python `0 <= v <= 1`: a Bool for numeric `v`, `TypeError` otherwise. -/
def pyBetween01 (v : JVal) : Except CfgErr Bool :=
  match pyAsNum v with
  | some q => .ok (decide (0 ≤ q) && decide (q ≤ 1))
  | none => .error .typeError

/-- Python `v.values()`: the values of a dict in insertion order;
`AttributeError` for every non-dict. -/
def pyValues : JVal → Except CfgErr (List JVal)
  | .jobj fs => .ok (fs.map Prod.snd)
  | _ => .error .attributeError

/-- Python `isinstance(v, str)`. -/
def isStr : JVal → Bool
  | .jstr _ => true
  | _ => false

/-- Python `isinstance(v, bool)`. -/
def isBool : JVal → Bool
  | .jbool _ => true
  | _ => false

/-- Python `isinstance(v, list)`. -/
def isList : JVal → Bool
  | .jlist _ => true
  | _ => false

/-- Python `ui['theme'] in ['light', 'dark']`: membership never raises, equality with
a string is `False` for every non-string. -/
def pyThemeOk : JVal → Bool
  | .jstr s => s == "light" || s == "dark"
  | _ => false

/-- The `for model in models.values()` loop of `validate_config`. -/
def validate_models : List JVal → Except CfgErr Unit
  | [] => .ok ()
  | m :: ms => do
      pyAssert (isStr (← pySubscript m "model_name"))
      pyAssertGtZero (← pySubscript m "max_length")
      pyAssert (isBool (← pySubscript m "truncation"))
      validate_models ms

/-- The `# Validate security settings` block of `validate_config`. -/
def validate_security (security : JVal) : Except CfgErr Unit := do
  pyAssertGtZero (← pySubscript security "max_text_length")
  pyAssertGtZero (← pySubscript security "max_file_size")
  pyAssertGtZero (← pySubscript security "rate_limit")
  pyAssert (isList (← pySubscript security "allowed_file_types"))

/-- The `# Validate UI settings` block of `validate_config`; note the code
subscripts `window_size` once for each dimension. -/
def validate_ui (ui : JVal) : Except CfgErr Unit := do
  pyAssert (pyThemeOk (← pySubscript ui "theme"))
  pyAssertGtZero (← pySubscript ui "font_size")
  pyAssertGtZero (← pySubscript (← pySubscript ui "window_size") "width")
  pyAssertGtZero (← pySubscript (← pySubscript ui "window_size") "height")

/-- The `# Validate analysis settings` block of `validate_config`. -/
def validate_analysis (analysis : JVal) : Except CfgErr Unit := do
  pyAssert (← pyBetween01 (← pySubscript analysis "confidence_threshold"))
  pyAssertGtZero (← pySubscript analysis "min_text_length")
  pyAssertGtZero (← pySubscript analysis "batch_size")

/-- The body of the `try` block of `Config.validate_config`, in source order
(the comment-delimited blocks of the source are the helper functions
above). -/
def validate_checks (config : JVal) : Except CfgErr Unit := do
  let security ← pySubscript config "security"
  validate_security security
  let models ← pySubscript config "models"
  validate_models (← pyValues models)
  let ui ← pySubscript config "ui"
  validate_ui ui
  let analysis ← pySubscript config "analysis"
  validate_analysis analysis

/-- Embeds `Config.validate_config`: `True` when every check passes, `False` when an
`AssertionError` or `KeyError` is raised; any other exception propagates. -/
def validate_config (config : JVal) : Except CfgErr Bool :=
  match validate_checks config with
  | .ok () => .ok true
  | .error .assertionError => .ok false
  | .error .keyError => .ok false
  | .error e => .error e

deriving instance DecidableEq for Except

/-- Specification-side label: `"AI"` when strictly more of the two models
predict AI than Human, `"Human"` otherwise (a model predicts AI exactly when
its result label is `"LABEL_1"`). -/
def spec_label (lbl1 lbl2 : String) : String :=
  let numAI : ℕ :=
    (if lbl1 = "LABEL_1" then 1 else 0) + (if lbl2 = "LABEL_1" then 1 else 0)
  let numHuman : ℕ := 2 - numAI
  if numHuman < numAI then "AI" else "Human"

/-- Specification-side confidence: the mean of the two scores, times 1.2 when
the token-probability feature exceeds 0.5, times 0.8 when the readability
feature exceeds 80, clamped to `[0, 1]`. -/
def spec_confidence (s1 s2 tokenProb readab : ℚ) : ℚ :=
  let base := (s1 + s2) / 2
  let b1 := if (0.5 : ℚ) < tokenProb then base * 1.2 else base
  let b2 := if (80 : ℚ) < readab then b1 * 0.8 else b1
  min (max b2 0) 1

/-- One-level dict lookup: `v[k]` when `v` is a dict with key `k`. -/
def lookup1 : JVal → String → Option JVal
  | .jobj fs, k => fs.lookup k
  | _, _ => none

/-- Specification side: `v` is a number (Python's `bool` included, as an `int`
subclass) and is positive. -/
def numOkPos (v : JVal) : Bool :=
  match pyAsNum v with
  | some q => decide (0 < q)
  | none => false

/-- Specification side: `v` is a number lying in `[0, 1]`. -/
def numOk01 (v : JVal) : Bool :=
  match pyAsNum v with
  | some q => decide (0 ≤ q) && decide (q ≤ 1)
  | none => false

/-- Specification side: the optional value exists and satisfies the check. -/
def optCheck (o : Option JVal) (f : JVal → Bool) : Bool :=
  match o with
  | some v => f v
  | none => false

/-- Specification side: the value is a dict all of whose values satisfy the
check. -/
def objAll (m : JVal) (f : JVal → Bool) : Bool :=
  match m with
  | .jobj fs => fs.all (fun kv => f kv.2)
  | _ => false

/-- Specification side: the section has key `k` with a positive number. -/
def numPosIn (sec : JVal) (k : String) : Bool :=
  optCheck (lookup1 sec k) numOkPos

/-- The claim's security checks: positive `max_text_length`, `max_file_size`
and `rate_limit`, and `allowed_file_types` a list. -/
def goodSecurity (sec : JVal) : Bool :=
  numPosIn sec "max_text_length" && numPosIn sec "max_file_size" &&
  numPosIn sec "rate_limit" &&
  optCheck (lookup1 sec "allowed_file_types") isList

/-- The claim's per-model checks: a string name, a positive `max_length`, a
boolean `truncation`. -/
def goodModel (m : JVal) : Bool :=
  optCheck (lookup1 m "model_name") isStr &&
  numPosIn m "max_length" &&
  optCheck (lookup1 m "truncation") isBool

/-- The claim's UI checks: theme `"light"` or `"dark"`, positive font size and
window dimensions. -/
def goodUi (ui : JVal) : Bool :=
  optCheck (lookup1 ui "theme") pyThemeOk &&
  numPosIn ui "font_size" &&
  optCheck (lookup1 ui "window_size")
    (fun ws => numPosIn ws "width" && numPosIn ws "height")

/-- The claim's analysis checks: `confidence_threshold` in `[0, 1]`, positive
`min_text_length` and `batch_size`. -/
def goodAnalysis (a : JVal) : Bool :=
  optCheck (lookup1 a "confidence_threshold") numOk01 &&
  numPosIn a "min_text_length" &&
  numPosIn a "batch_size"

/-- The configuration satisfies all the basic range and type checks the claim
enumerates. -/
def goodConfig (c : JVal) : Bool :=
  optCheck (lookup1 c "security") goodSecurity &&
  optCheck (lookup1 c "models") (fun m => objAll m goodModel) &&
  optCheck (lookup1 c "ui") goodUi &&
  optCheck (lookup1 c "analysis") goodAnalysis

theorem config_get_loop_eq (ks : List String) : ∀ v deflt : JVal,
    config_get_loop ks v deflt = (lookupPath ks v).getD deflt := by
  induction ks with
  | nil => intro v deflt; rfl
  | cons k rest ih =>
      intro v deflt
      cases v with
      | jobj fs =>
          simp only [config_get_loop, lookupPath]
          cases fs.lookup k with
          | none => rfl
          | some w => exact ih w deflt
      | jnull => rfl
      | jbool b => rfl
      | jnum q => rfl
      | jstr s => rfl
      | jlist xs => rfl

/-- C10: `Config.get` is total (it is a function in this embedding) and, for
every dotted key, returns the value stored under the key path when every
intermediate value is a dict containing the next key, and the caller-supplied
default as soon as any key along the path is absent or an intermediate value is
not a dict — which is exactly `lookupPath` followed by `Option.getD`. -/
theorem config_get_total_spec (config : JVal) (key : String) (deflt : JVal) :
    config_get config key deflt =
      (lookupPath (pySplitDot key) config).getD deflt :=
  config_get_loop_eq _ config deflt

theorem check_suspicious_ok_iff (ps : List (List RTok)) (s : List Char) :
    check_suspicious ps s = .ok () ↔ ∀ p ∈ ps, ciSearch p s = false := by
  induction ps with
  | nil => simp [check_suspicious]
  | cons p ps ih =>
      by_cases h : ciSearch p s
      · simp [check_suspicious, h]
      · simp only [Bool.not_eq_true] at h
        simp [check_suspicious, h, ih]

theorem check_suspicious_cases (ps : List (List RTok)) (s : List Char) :
    check_suspicious ps s = .ok () ∨
    check_suspicious ps s =
      .error (.securityError "Suspicious pattern detected in input") := by
  induction ps with
  | nil => exact Or.inl rfl
  | cons p ps ih =>
      by_cases h : ciSearch p s
      · exact Or.inr (by simp [check_suspicious, h])
      · simpa [check_suspicious, h] using ih

/-- C5: `_sanitize_input` first removes all characters with code point below
32, then raises `SecurityError` if and only if the stripped text matches
(case-insensitively) at least one of the eight suspicious patterns; when no
pattern matches it returns the HTML-escaped form of the stripped text. -/
theorem sanitize_input_spec (t : String) :
    (sanitize_input t =
        .error (.securityError "Suspicious pattern detected in input") ↔
      ∃ p ∈ suspicious_patterns, ciSearch p (stripControl t) = true) ∧
    ((∀ p ∈ suspicious_patterns, ciSearch p (stripControl t) = false) →
      sanitize_input t = .ok (htmlEscape (stripControl t))) := by
  by_cases hall : ∀ p ∈ suspicious_patterns, ciSearch p (stripControl t) = false
  · have hok := (check_suspicious_ok_iff suspicious_patterns (stripControl t)).2 hall
    refine ⟨iff_of_false ?_ ?_, fun _ => ?_⟩
    · simp [sanitize_input, hok]
    · rintro ⟨p, hp, htrue⟩
      exact absurd (hall p hp) (by simp [htrue])
    · simp [sanitize_input, hok]
  · have hnotok : ¬ check_suspicious suspicious_patterns (stripControl t) = .ok () :=
      fun hok => hall ((check_suspicious_ok_iff _ _).1 hok)
    rcases check_suspicious_cases suspicious_patterns (stripControl t) with hok | herr
    · exact absurd hok hnotok
    · refine ⟨iff_of_true ?_ ?_, fun hforall => absurd hforall hall⟩
      · simp [sanitize_input, herr]
      · push_neg at hall
        obtain ⟨p, hp, hne⟩ := hall
        exact ⟨p, hp, by simpa using hne⟩

theorem sanitize_input_spec_witness :
    (∀ p ∈ suspicious_patterns, ciSearch p (stripControl "abc") = false) ∧
    sanitize_input "abc" = .ok (htmlEscape (stripControl "abc")) :=
  ⟨by decide, (sanitize_input_spec "abc").2 (by decide)⟩

theorem runCalls_le (ts : List ℚ) (t0 : ℚ)
    (h : ∀ t ∈ ts, t0 ≤ t ∧ t ≤ t0 + 60) :
    ∀ c : ℕ, (runCalls 100 ts ⟨t0, c⟩).2 ≤ 100 - c := by
  induction ts with
  | nil => intro c; simp [runCalls]
  | cons t ts ih =>
      intro c
      obtain ⟨h1, h2⟩ := h t (by simp)
      have hn : ¬ 60 < t - t0 := by linarith
      have hstep : check_rate_limit 100 t ⟨t0, c⟩ =
          (if 100 < c + 1 then .error (.securityError "Rate limit exceeded")
            else .ok (), ⟨t0, c + 1⟩) := by
        simp [check_rate_limit, hn]
      have hrest := ih (fun t' ht' => h t' (by simp [ht'])) (c + 1)
      by_cases hc : 100 < c + 1
      · simp only [runCalls, hstep, if_pos hc]
        omega
      · simp only [runCalls, hstep, if_neg hc]
        omega

/-- C3: `_check_rate_limit` resets the counter (to 0, then incremented to 1)
and the reset time exactly when more than 60 seconds have elapsed since the
last reset, otherwise keeps the reset time and increments the counter; it
raises `SecurityError` if and only if the incremented count exceeds the
configured limit of 100.  Consequently, among any sequence of calls whose
times lie within the 60-second window starting at a reset, at most 100 calls
succeed. -/
theorem check_rate_limit_spec :
    (∀ (now : ℚ) (st : RateState),
      (60 < now - st.lastRequestTime →
        check_rate_limit 100 now st = (.ok (), ⟨now, 1⟩)) ∧
      (¬ 60 < now - st.lastRequestTime →
        (check_rate_limit 100 now st).2 =
          ⟨st.lastRequestTime, st.requestCount + 1⟩) ∧
      ((check_rate_limit 100 now st).1 =
          .error (.securityError "Rate limit exceeded") ↔
        100 < (check_rate_limit 100 now st).2.requestCount)) ∧
    (∀ (t0 : ℚ) (ts : List ℚ), (∀ t ∈ ts, t0 ≤ t ∧ t ≤ t0 + 60) →
      (runCalls 100 ts ⟨t0, 0⟩).2 ≤ 100) := by
  constructor
  · intro now st
    refine ⟨fun h => ?_, fun h => ?_, ?_⟩
    · simp [check_rate_limit, h]
    · simp [check_rate_limit, h]
    · by_cases h : 60 < now - st.lastRequestTime
      · simp [check_rate_limit, h]
      · by_cases hc : 100 < st.requestCount + 1
        · simp [check_rate_limit, h, hc]
        · simp [check_rate_limit, h, hc]
  · intro t0 ts h
    simpa using runCalls_le ts t0 h 0

theorem check_rate_limit_spec_witness :
    (60 < (70 : ℚ) - (⟨0, 5⟩ : RateState).lastRequestTime ∧
      check_rate_limit 100 70 ⟨0, 5⟩ = (.ok (), ⟨70, 1⟩)) ∧
    ((∀ t ∈ [(0 : ℚ), 30, 60], 0 ≤ t ∧ t ≤ 0 + 60) ∧
      (runCalls 100 [(0 : ℚ), 30, 60] ⟨0, 0⟩).2 ≤ 100) :=
  ⟨⟨by norm_num, (check_rate_limit_spec.1 70 ⟨0, 5⟩).1 (by norm_num)⟩,
   ⟨by norm_num, check_rate_limit_spec.2 0 [0, 30, 60] (by norm_num)⟩⟩

theorem detect_except_error (e : PyExc) :
    ∃ e', detect_except (.error e) = .error e' := by
  cases e <;> exact ⟨_, rfl⟩

/-- C9: the rate-limit counter is incremented before input validation, so a
call of `detect` that fails validation (empty/whitespace-only text, over-length
text, or a suspicious pattern) still raises an exception while consuming one
unit of the rate-limit budget of the current window. -/
theorem detect_invalid_consumes_budget (maxLen : ℕ) (now : ℚ) (st : RateState)
    (text : String) (env : ModelEnv)
    (hwin : ¬ 60 < now - st.lastRequestTime)
    (hbad : text.toList.all isPySpace = true ∨ maxLen < text.length ∨
      sanitize_input text =
        .error (.securityError "Suspicious pattern detected in input")) :
    (∃ e, (detect maxLen now st text env).1 = .error e) ∧
    (detect maxLen now st text env).2.requestCount = st.requestCount + 1 := by
  constructor
  · rcases hrl : (check_rate_limit 100 now st).1 with e | u
    · obtain ⟨e', he'⟩ := detect_except_error e
      exact ⟨e', by simp [detect, hrl, he']⟩
    · have hbody : ∃ e, detect_body maxLen text env = .error e := by
        by_cases hsp : text.toList.all isPySpace = true
        · refine ⟨.valueError "Input text cannot be empty", ?_⟩
          simp only [detect_body, hsp, reduceIte]
        · have hsp' : text.toList.all isPySpace = false := by simpa using hsp
          by_cases hlen : maxLen < text.length
          · refine ⟨.securityError
              ("Text length exceeds maximum allowed length of " ++
                toString maxLen ++ " characters"), ?_⟩
            simp only [detect_body, hsp', Bool.false_eq_true, if_false, if_pos hlen]
          · rcases hbad with h | h | h
            · exact absurd h hsp
            · exact absurd h hlen
            · refine ⟨.securityError "Suspicious pattern detected in input", ?_⟩
              simp only [detect_body, hsp', Bool.false_eq_true, if_false, if_neg hlen]
              simp [h]
      obtain ⟨e, he⟩ := hbody
      obtain ⟨e', he'⟩ := detect_except_error e
      exact ⟨e', by simp [detect, hrl, he, he']⟩
  · simp [detect, check_rate_limit, hwin]

theorem detect_invalid_consumes_budget_witness :
    (∃ e, (detect 10000 0 ⟨0, 3⟩ ""
        ⟨.ok ("LABEL_1", 1), .ok ("LABEL_1", 1), 0, 0⟩).1 = .error e) ∧
    (detect 10000 0 ⟨0, 3⟩ ""
        ⟨.ok ("LABEL_1", 1), .ok ("LABEL_1", 1), 0, 0⟩).2.requestCount =
      (⟨0, 3⟩ : RateState).requestCount + 1 :=
  detect_invalid_consumes_budget 10000 0 ⟨0, 3⟩ ""
    ⟨.ok ("LABEL_1", 1), .ok ("LABEL_1", 1), 0, 0⟩ (by norm_num)
    (Or.inl (by decide))

theorem ite_label_shape {C : Prop} [Decidable C] {x : String}
    (h : (if C then "AI" else "Human") = x) : x = "AI" ∨ x = "Human" := by
  split at h
  · exact Or.inl h.symm
  · exact Or.inr h.symm

theorem detect_body_ok_shape (maxLen : ℕ) (text : String) (env : ModelEnv)
    (label : String) (conf : ℚ)
    (h : detect_body maxLen text env = .ok (label, conf)) :
    (label = "AI" ∨ label = "Human") ∧ ∃ x : ℚ, conf = min (max x 0) 1 := by
  simp only [detect_body] at h
  split at h
  · simp at h
  split at h
  · simp at h
  split at h
  · simp at h
  split at h
  · simp at h
  split at h
  · simp at h
  simp only [Except.ok.injEq, Prod.mk.injEq] at h
  obtain ⟨hl, hc⟩ := h
  exact ⟨ite_label_shape hl, _, hc.symm⟩

/-- C8: every successful call of `detect` returns a confidence in `[0, 1]` and
a label that is exactly `"AI"` or `"Human"`, whatever the raw model scores and
feature adjustments were. -/
theorem detect_ok_bounds (maxLen : ℕ) (now : ℚ) (st : RateState)
    (text : String) (env : ModelEnv) (label : String) (conf : ℚ)
    (h : (detect maxLen now st text env).1 = .ok (label, conf)) :
    0 ≤ conf ∧ conf ≤ 1 ∧ (label = "AI" ∨ label = "Human") := by
  have hinner : detect_body maxLen text env = .ok (label, conf) := by
    rcases hrl : (check_rate_limit 100 now st).1 with e | u
    · obtain ⟨e', he'⟩ := detect_except_error e
      simp [detect, hrl, he'] at h
    · rcases hb : detect_body maxLen text env with e | ⟨vl, vc⟩
      · obtain ⟨e', he'⟩ := detect_except_error e
        simp [detect, hrl, hb, he'] at h
      · simp [detect, hrl, hb, detect_except] at h
        rw [h.1, h.2]
  obtain ⟨hlab, x, hconf⟩ := detect_body_ok_shape _ _ _ _ _ hinner
  subst hconf
  exact ⟨le_min (le_max_right _ _) zero_le_one, min_le_right _ _, hlab⟩

theorem detect_ok_bounds_witness :
    0 ≤ (21 / 25 : ℚ) ∧ (21 / 25 : ℚ) ≤ 1 ∧
    (("Human" : String) = "AI" ∨ ("Human" : String) = "Human") := by
  have h : (detect 10000 0 ⟨0, 0⟩ "hello"
      ⟨.ok ("LABEL_1", 9 / 10), .ok ("LABEL_0", 1 / 2), 3 / 5, 50⟩).1 =
      .ok ("Human", 21 / 25) := by
    have h1 : ("hello".toList.all isPySpace) = false := by decide
    have hsan : sanitize_input "hello" = .ok "hello" := by decide
    have hL0 : (("LABEL_0" : String) = "LABEL_1") = False := by simp
    have hL1 : (("LABEL_1" : String) = "LABEL_1") = True := by simp
    have hAH : (("Human" : String) = "AI") = False := by simp
    have hHH : (("Human" : String) = "Human") = True := by simp
    have hAA : (("AI" : String) = "AI") = True := by simp
    have hHA : (("AI" : String) = "Human") = False := by simp
    have hsp : isPySpace 'h' = false := by decide
    have hsp2 : isPySpace 'e' = false := by decide
    have hsp3 : isPySpace 'l' = false := by decide
    have hsp4 : isPySpace 'o' = false := by decide
    have hlen : "hello".length = 5 := by decide
    norm_num [detect, check_rate_limit, detect_body, detect_except, h1, hsan,
      hL0, hL1, hAH, hHH, hAA, hHA, hsp, hsp2, hsp3, hsp4, hlen,
      List.count_cons, List.count_nil, min_def, max_def]
  exact detect_ok_bounds 10000 0 ⟨0, 0⟩ "hello"
    ⟨.ok ("LABEL_1", 9 / 10), .ok ("LABEL_0", 1 / 2), 3 / 5, 50⟩ "Human"
    (21 / 25) h

/-- C2 (code bug): the claim — following `detect`'s own docstring — says an
empty input raises `ValueError`, but the generic `except Exception` handler at
the end of `detect` wraps the internally raised `ValueError` into a
`RuntimeError`, so no `ValueError` ever escapes `detect`. -/
theorem detect_empty_input_runtime_error :
    (detect 10000 0 ⟨0, 0⟩ ""
        ⟨.ok ("LABEL_1", 1), .ok ("LABEL_1", 1), 0, 0⟩).1 =
      .error (.runtimeError
        "An unexpected error occurred: Input text cannot be empty") := by
  have h1 : ("".toList.all isPySpace) = true := by decide
  have hmsg : "An unexpected error occurred: " ++ "Input text cannot be empty" =
      "An unexpected error occurred: Input text cannot be empty" := by decide
  norm_num [detect, check_rate_limit, detect_body, detect_except, h1,
    PyExc.message, hmsg]

/-- C1: for every input that passes the security checks (rate limit, non-empty,
within the length bound, sanitizer accepts) and for which both model calls
return, `detect` returns exactly the label computed by majority over the two
models (`"AI"` only when strictly more models predict AI) and the confidence
computed as the mean of the two scores, times 1.2 when `token_probability`
exceeds 0.5, times 0.8 when `readability` exceeds 80, clamped to `[0, 1]`. -/
theorem detect_success_formula (maxLen : ℕ) (now : ℚ) (st : RateState)
    (text : String) (env : ModelEnv) (lbl1 lbl2 : String) (s1 s2 : ℚ)
    (sanitized : String)
    (hrate : (check_rate_limit 100 now st).1 = .ok ())
    (hne : text.toList.all isPySpace = false)
    (hlen : text.length ≤ maxLen)
    (hsan : sanitize_input text = .ok sanitized)
    (hg : env.gpt2 = .ok (lbl1, s1)) (hr : env.roberta = .ok (lbl2, s2)) :
    (detect maxLen now st text env).1 =
      .ok (spec_label lbl1 lbl2,
        spec_confidence s1 s2 env.token_probability env.readability) := by
  have hnlen : ¬ maxLen < text.length := Nat.not_lt.mpr hlen
  have hbody : detect_body maxLen text env =
      .ok (spec_label lbl1 lbl2,
        spec_confidence s1 s2 env.token_probability env.readability) := by
    simp only [detect_body, hne, Bool.false_eq_true, if_false, if_neg hnlen,
      hsan, hg, hr, Except.ok.injEq, Prod.mk.injEq]
    constructor
    · -- the final label agrees with the specification-side majority label
      by_cases h1 : lbl1 = "LABEL_1" <;> by_cases h2 : lbl2 = "LABEL_1" <;>
        simp [spec_label, h1, h2, List.count_cons, List.count_nil]
    · -- the final confidence agrees with the specification-side formula
      simp [spec_confidence]
  simp only [detect, hrate, hbody, detect_except]

theorem detect_success_formula_witness :
    (detect 10000 0 ⟨0, 0⟩ "hello"
        ⟨.ok ("LABEL_1", 9 / 10), .ok ("LABEL_0", 1 / 2), 3 / 5, 50⟩).1 =
      .ok (spec_label "LABEL_1" "LABEL_0",
        spec_confidence (9 / 10) (1 / 2) (3 / 5) 50) :=
  detect_success_formula 10000 0 ⟨0, 0⟩ "hello"
    ⟨.ok ("LABEL_1", 9 / 10), .ok ("LABEL_0", 1 / 2), 3 / 5, 50⟩
    "LABEL_1" "LABEL_0" (9 / 10) (1 / 2) "hello"
    (by norm_num [check_rate_limit]) (by decide) (by decide) (by decide)
    rfl rfl

theorem batch_detect_length (maxLen : ℕ) :
    ∀ (items : List BatchItem) (st : RateState),
      (batch_detect maxLen items st).1.length = items.length := by
  intro items
  induction items with
  | nil => intro st; rfl
  | cons x xs ih => intro st; simp [batch_detect, ih]

theorem batch_detect_getElem (maxLen : ℕ) :
    ∀ (items : List BatchItem) (st : RateState) (i : ℕ) (item : BatchItem),
      items[i]? = some item →
      (batch_detect maxLen items st).1[i]? = some
        (match (detect maxLen item.now (state_after maxLen items st i)
            item.text item.env).1 with
         | .ok (label, conf) => .success (truncText item.text) label conf
         | .error e => .failure (truncText item.text) e.message) := by
  intro items
  induction items with
  | nil => intro st i item h; simp at h
  | cons x xs ih =>
      intro st i item h
      cases i with
      | zero =>
          simp only [List.getElem?_cons_zero, Option.some.injEq] at h
          subst h
          simp [batch_detect, state_after]
      | succ i =>
          simp only [List.getElem?_cons_succ] at h
          have := ih (detect maxLen x.now st x.text x.env).2 i item h
          have hstate : state_after maxLen (x :: xs) st (i + 1) =
              state_after maxLen xs (detect maxLen x.now st x.text x.env).2 i := by
            simp [state_after, List.take_succ_cons, batch_detect]
          simp only [batch_detect, List.getElem?_cons_succ]
          rw [hstate]
          exact this

/-- C4: `batch_detect` produces exactly one result per input text, in order:
the `i`-th result records status `"success"` with the prediction and confidence
when `detect` succeeds on the `i`-th text (run against the rate-limiter state
left by the previous texts), and status `"error"` with the error message when
`detect` raises — in which case the remaining texts are still processed. -/
theorem batch_detect_spec (maxLen : ℕ) (items : List BatchItem)
    (st : RateState) :
    ((batch_detect maxLen items st).1.length = items.length) ∧
    (∀ (i : ℕ) (item : BatchItem), items[i]? = some item →
      (batch_detect maxLen items st).1[i]? = some
        (match (detect maxLen item.now (state_after maxLen items st i)
            item.text item.env).1 with
         | .ok (label, conf) => .success (truncText item.text) label conf
         | .error e => .failure (truncText item.text) e.message)) :=
  ⟨batch_detect_length maxLen items st,
   fun i item h => batch_detect_getElem maxLen items st i item h⟩

theorem batch_detect_spec_witness :
    ((batch_detect 10000
        [⟨"", 0, ⟨.ok ("LABEL_1", 1), .ok ("LABEL_1", 1), 0, 0⟩⟩]
        ⟨0, 0⟩).1.length =
      [(⟨"", 0, ⟨.ok ("LABEL_1", 1), .ok ("LABEL_1", 1), 0, 0⟩⟩ :
        BatchItem)].length) ∧
    ((batch_detect 10000
        [⟨"", 0, ⟨.ok ("LABEL_1", 1), .ok ("LABEL_1", 1), 0, 0⟩⟩]
        ⟨0, 0⟩).1[0]? = some
      (match (detect 10000 (0 : ℚ)
          (state_after 10000
            [⟨"", 0, ⟨.ok ("LABEL_1", 1), .ok ("LABEL_1", 1), 0, 0⟩⟩]
            ⟨0, 0⟩ 0) ""
          ⟨.ok ("LABEL_1", 1), .ok ("LABEL_1", 1), 0, 0⟩).1 with
       | .ok (label, conf) => .success (truncText "") label conf
       | .error e => .failure (truncText "") e.message)) :=
  ⟨(batch_detect_spec 10000
      [⟨"", 0, ⟨.ok ("LABEL_1", 1), .ok ("LABEL_1", 1), 0, 0⟩⟩] ⟨0, 0⟩).1,
   (batch_detect_spec 10000
      [⟨"", 0, ⟨.ok ("LABEL_1", 1), .ok ("LABEL_1", 1), 0, 0⟩⟩] ⟨0, 0⟩).2
      0 ⟨"", 0, ⟨.ok ("LABEL_1", 1), .ok ("LABEL_1", 1), 0, 0⟩⟩ rfl⟩

/-- C6 (code bug): the claim — following the code's own comment "Merge with
default config to ensure all settings exist" — says every key path of the
default configuration survives the merge, but `{**defaults, **config}` merges
only at the top level: a file providing a partial `security` section replaces
the whole default section, and the nested default key
`security.max_text_length` is lost (`Config.get` falls back to its default
argument on the merged configuration). -/
theorem load_config_loses_nested_defaults :
    config_get default_config "security.max_text_length" .jnull =
      .jnum 10000 ∧
    config_get
      (load_config (some (.jobj [("security", .jobj [("rate_limit", .jnum 5)])])))
      "security.max_text_length" .jnull = .jnull :=
  ⟨rfl, rfl⟩

theorem unit_bind_ok_iff (x : Except CfgErr Unit)
    (f : Unit → Except CfgErr Unit) :
    (x >>= f) = .ok () ↔ (x = .ok () ∧ f () = .ok ()) := by
  cases x with
  | error e => simp [Bind.bind, Except.bind]
  | ok u => cases u; simp [Bind.bind, Except.bind]

theorem psub_bind_ok_iff (v : JVal) (k : String)
    (f : JVal → Except CfgErr Unit) :
    (pySubscript v k >>= f) = .ok () ↔
      ∃ w, lookup1 v k = some w ∧ f w = .ok () := by
  cases v with
  | jobj fs => cases h : fs.lookup k <;>
      simp [pySubscript, lookup1, h, Bind.bind, Except.bind]
  | jnull => simp [pySubscript, lookup1, Bind.bind, Except.bind]
  | jbool b => simp [pySubscript, lookup1, Bind.bind, Except.bind]
  | jnum q => simp [pySubscript, lookup1, Bind.bind, Except.bind]
  | jstr s => simp [pySubscript, lookup1, Bind.bind, Except.bind]
  | jlist xs => simp [pySubscript, lookup1, Bind.bind, Except.bind]

theorem pyAssert_ok_iff (b : Bool) : pyAssert b = .ok () ↔ b = true := by
  cases b <;> simp [pyAssert]

theorem pyAssert_bind_ok_iff (b : Bool) (f : Unit → Except CfgErr Unit) :
    (pyAssert b >>= f) = .ok () ↔ (b = true ∧ f () = .ok ()) := by
  cases b <;> simp [pyAssert, Bind.bind, Except.bind]

theorem pyAssertGtZero_ok_iff (v : JVal) :
    pyAssertGtZero v = .ok () ↔ numOkPos v = true := by
  cases hn : pyAsNum v <;>
    simp [pyAssertGtZero, pyGtZero, hn, numOkPos, pyAssert_ok_iff,
      Bind.bind, Except.bind]

theorem pyAssertGtZero_bind_ok_iff (v : JVal)
    (f : Unit → Except CfgErr Unit) :
    (pyAssertGtZero v >>= f) = .ok () ↔
      (numOkPos v = true ∧ f () = .ok ()) := by
  cases hn : pyAsNum v with
  | none =>
      simp [pyAssertGtZero, pyGtZero, hn, numOkPos, Bind.bind, Except.bind]
  | some q =>
      by_cases h0 : decide (0 < q) = true <;>
        simp [pyAssertGtZero, pyGtZero, pyAssert, hn, numOkPos, h0,
          Bind.bind, Except.bind]

theorem pyBetween01_assert_ok_iff (v : JVal)
    (f : Unit → Except CfgErr Unit) :
    (pyBetween01 v >>= fun b => pyAssert b >>= f) = .ok () ↔
      (numOk01 v = true ∧ f () = .ok ()) := by
  cases hn : pyAsNum v with
  | none => simp [pyBetween01, hn, numOk01, Bind.bind, Except.bind]
  | some q =>
      by_cases h01 : (decide (0 ≤ q) && decide (q ≤ 1)) = true <;>
        simp [pyBetween01, pyAssert, hn, numOk01, h01,
          Bind.bind, Except.bind]

theorem pyValues_bind_ok_iff (v : JVal) (f : List JVal → Except CfgErr Unit) :
    (pyValues v >>= f) = .ok () ↔
      ∃ fs, v = .jobj fs ∧ f (fs.map Prod.snd) = .ok () := by
  cases v <;> simp [pyValues, Bind.bind, Except.bind]

theorem optCheck_iff (o : Option JVal) (f : JVal → Bool) :
    optCheck o f = true ↔ ∃ v, o = some v ∧ f v = true := by
  cases o <;> simp [optCheck]

theorem objAll_iff (m : JVal) (f : JVal → Bool) :
    objAll m f = true ↔
      ∃ fs, m = .jobj fs ∧ fs.all (fun kv => f kv.2) = true := by
  cases m <;> simp [objAll]

theorem validate_models_ok_iff (ms : List JVal) :
    validate_models ms = .ok () ↔ ms.all goodModel = true := by
  induction ms with
  | nil => simp [validate_models]
  | cons m ms ih =>
      simp [validate_models, psub_bind_ok_iff, pyAssert_bind_ok_iff,
        pyAssertGtZero_bind_ok_iff, pyAssert_ok_iff, ih, goodModel, numPosIn,
        optCheck_iff, Bool.and_eq_true]
      tauto

theorem validate_security_ok_iff (sec : JVal) :
    validate_security sec = .ok () ↔ goodSecurity sec = true := by
  simp only [validate_security, goodSecurity, numPosIn, psub_bind_ok_iff,
    pyAssert_bind_ok_iff, pyAssertGtZero_bind_ok_iff, pyAssert_ok_iff,
    optCheck_iff, Bool.and_eq_true]
  tauto

theorem validate_ui_ok_iff (ui : JVal) :
    validate_ui ui = .ok () ↔ goodUi ui = true := by
  cases hws : lookup1 ui "window_size" with
  | none =>
      simp [validate_ui, goodUi, numPosIn, psub_bind_ok_iff,
        pyAssert_bind_ok_iff, pyAssertGtZero_bind_ok_iff,
        pyAssertGtZero_ok_iff, optCheck_iff, Bool.and_eq_true, hws]
  | some ws =>
      simp [validate_ui, goodUi, numPosIn, psub_bind_ok_iff,
        pyAssert_bind_ok_iff, pyAssertGtZero_bind_ok_iff,
        pyAssertGtZero_ok_iff, optCheck_iff, Bool.and_eq_true, hws]
      tauto

theorem validate_analysis_ok_iff (a : JVal) :
    validate_analysis a = .ok () ↔ goodAnalysis a = true := by
  simp only [validate_analysis, goodAnalysis, numPosIn, psub_bind_ok_iff,
    pyBetween01_assert_ok_iff, pyAssertGtZero_bind_ok_iff,
    pyAssertGtZero_ok_iff, optCheck_iff, Bool.and_eq_true]
  tauto

theorem all_map_snd (fs : List (String × JVal)) (p : JVal → Bool) :
    (fs.map Prod.snd).all p = fs.all (fun kv => p kv.2) := by
  induction fs with
  | nil => rfl
  | cons kv fs ih => simp [ih]

theorem validate_checks_ok_iff (c : JVal) :
    validate_checks c = .ok () ↔ goodConfig c = true := by
  simp only [validate_checks, goodConfig, psub_bind_ok_iff, unit_bind_ok_iff,
    pyValues_bind_ok_iff, validate_security_ok_iff, validate_models_ok_iff,
    validate_ui_ok_iff, validate_analysis_ok_iff, optCheck_iff, objAll_iff,
    Bool.and_eq_true, all_map_snd]
  tauto

/-- C7 (amended): `validate_config` returns `True` if and only if the
configuration satisfies all the enumerated range and type checks; an
`AssertionError` (failed check) or `KeyError` (missing key) is caught and
yields `False` — but, contrary to the original claim, a value of the wrong
type that makes a comparison or subscript raise (`TypeError`, or
`AttributeError` for a non-dict `models`) propagates out of `validate_config`
instead of producing `False`. -/
theorem validate_config_amended (c : JVal) :
    (validate_config c = .ok true ↔ goodConfig c = true) ∧
    validate_config c ≠ .error .assertionError ∧
    validate_config c ≠ .error .keyError := by
  refine ⟨⟨?_, ?_⟩, ?_, ?_⟩
  · intro hok
    unfold validate_config at hok
    rcases h : validate_checks c with e | u
    · rw [h] at hok
      cases e <;> simp at hok
    · cases u
      exact (validate_checks_ok_iff c).1 h
  · intro hgood
    have h := (validate_checks_ok_iff c).2 hgood
    unfold validate_config
    rw [h]
  · unfold validate_config
    rcases h : validate_checks c with e | u
    · cases e <;> simp
    · cases u; simp
  · unfold validate_config
    rcases h : validate_checks c with e | u
    · cases e <;> simp
    · cases u; simp

/-- C7 (counterexample to the original claim): on a configuration whose
`security.max_text_length` is the string `"oops"` the checks are not
satisfied, yet `validate_config` does not return `False` — the comparison
`"oops" > 0` raises `TypeError`, which is not caught. -/
theorem validate_config_type_error_counterexample :
    goodConfig
      (.jobj [("security", .jobj [("max_text_length", .jstr "oops")])]) =
      false ∧
    validate_config
      (.jobj [("security", .jobj [("max_text_length", .jstr "oops")])]) =
      .error .typeError :=
  ⟨rfl, rfl⟩
